import Mathlib

/-!
Verification development for the parking-facility manager `Model.py`
(classes `Vehiculo` and `Parqueadero`).

Modelling conventions (shallow embedding of the Python source):

* Python dicts (the `cupos` capacity map) are association lists with
  first-occurrence lookup and in-place update of the first occurrence,
  matching CPython's insertion-ordered dict semantics for the operations
  the program performs.
* Python `datetime` values are modelled at second resolution by the
  `DateTime` structure; `strftime`/`strptime` for the single format
  `"%Y-%m-%d %H:%M:%S"` used by the program are implemented explicitly,
  and datetime subtraction goes through the proleptic-Gregorian ordinal
  (`toOrdinal`), exactly as CPython's `datetime` arithmetic does.
* Python floats (fees, the 0.9 discount factor, coordinates) are
  idealised as exact rationals `ℚ`.
* `datetime.now()` calls become an explicit `now : DateTime` argument.
* File I/O is abstracted: `guardar_datos` produces the JSON payload as a
  `Payload` value and `cargar_datos` consumes one; the JSON text encoding
  itself is outside the model.
* A Python statement that would raise (e.g. `strptime` on a malformed
  stored timestamp) is modelled by an `Option` result, `none` meaning the
  exception path, which performs no state mutation in the source either.
-/

/-! ## Association-list model of Python dicts -/

/-- Python `m.get(k, d)` on a dict: value at the first occurrence of the
key, else the default. -/
def dGet {β : Type} : List (String × β) → String → β → β
  | [], _, d => d
  | (k, v) :: m, key, d => if k = key then v else dGet m key d

/-- Python `m[k] = v` on a dict: overwrite the first occurrence of the
key in place, else append the new key at the end (insertion order). -/
def dSet {β : Type} : List (String × β) → String → β → List (String × β)
  | [], key, val => [(key, val)]
  | (k, v) :: m, key, val =>
    if k = key then (key, val) :: m else (k, v) :: dSet m key val

/-! ## Second-resolution datetime model -/

/-- A `datetime` value at second resolution (the program only ever
formats and parses seconds). -/
structure DateTime where
  year : Nat
  month : Nat
  day : Nat
  hour : Nat
  minute : Nat
  second : Nat
deriving DecidableEq, Repr

/-- Gregorian leap-year test, as in CPython's `datetime` module. -/
def isLeap (y : Nat) : Bool :=
  y % 4 == 0 && (y % 100 != 0 || y % 400 == 0)

/-- Number of days in a month of a given year. -/
def daysInMonth (y m : Nat) : Nat :=
  if m = 2 then (if isLeap y then 29 else 28)
  else if m = 4 ∨ m = 6 ∨ m = 9 ∨ m = 11 then 30
  else 31

/-- Days in the year strictly before month `m` (1-indexed). -/
def daysBeforeMonth (y m : Nat) : Nat :=
  ([0, 0, 31, 59, 90, 120, 151, 181, 212, 243, 273, 304, 334].getD m 0)
    + (if isLeap y && decide (2 < m) then 1 else 0)

/-- Proleptic-Gregorian ordinal: `datetime.toordinal()`, the day number
with 0001-01-01 as day 1.  This is what CPython's datetime subtraction
is computed from. -/
def toOrdinal (dt : DateTime) : Nat :=
  365 * (dt.year - 1) + (dt.year - 1) / 4 - (dt.year - 1) / 100
    + (dt.year - 1) / 400 + daysBeforeMonth dt.year dt.month + dt.day

/-- Linear time in seconds; `(a - b).total_seconds()` on two
second-resolution datetimes equals `toSeconds a - toSeconds b` in `ℤ`. -/
def toSeconds (dt : DateTime) : Nat :=
  86400 * toOrdinal dt + 3600 * dt.hour + 60 * dt.minute + dt.second

/-- The field ranges under which a `DateTime` denotes a real
`datetime.datetime` (CPython validates these bounds on construction). -/
def DateTime.Valid (dt : DateTime) : Prop :=
  1 ≤ dt.year ∧ dt.year ≤ 9999 ∧ 1 ≤ dt.month ∧ dt.month ≤ 12 ∧
    1 ≤ dt.day ∧ dt.day ≤ daysInMonth dt.year dt.month ∧
    dt.hour ≤ 23 ∧ dt.minute ≤ 59 ∧ dt.second ≤ 59

instance (dt : DateTime) : Decidable dt.Valid := by
  unfold DateTime.Valid; infer_instance

/-! ### The `"%Y-%m-%d %H:%M:%S"` format -/

def spaceChar : Char := Char.ofNat 32
def dashChar : Char := Char.ofNat 45
def colonChar : Char := Char.ofNat 58

/-- Split a character list at every occurrence of the separator. -/
def splitOnChar (sep : Char) : List Char → List (List Char)
  | [] => [[]]
  | c :: cs =>
    let rest := splitOnChar sep cs
    if c = sep then [] :: rest
    else
      match rest with
      | [] => [[c]]
      | r :: rs => (c :: r) :: rs

/-- Parse a non-empty all-digit character list as a decimal number. -/
def parseNat? (l : List Char) : Option Nat :=
  if l ≠ [] ∧ l.all Char.isDigit then
    some (l.foldl (fun a c => 10 * a + (c.toNat - 48)) 0)
  else none

/-- Zero-pad to two digits (`%m`, `%d`, `%H`, `%M`, `%S`). -/
def pad2 (n : Nat) : String :=
  if n < 10 then "0" ++ toString n else toString n

/-- Zero-pad to four digits (`%Y`). -/
def pad4 (n : Nat) : String :=
  if n < 10 then "000" ++ toString n
  else if n < 100 then "00" ++ toString n
  else if n < 1000 then "0" ++ toString n
  else toString n

/-- Python `dt.strftime("%Y-%m-%d %H:%M:%S")`. -/
def strftime (dt : DateTime) : String :=
  pad4 dt.year ++ "-" ++ pad2 dt.month ++ "-" ++ pad2 dt.day ++ " "
    ++ pad2 dt.hour ++ ":" ++ pad2 dt.minute ++ ":" ++ pad2 dt.second

/-- Python `datetime.strptime(s, "%Y-%m-%d %H:%M:%S")`, returning `none` where
CPython raises `ValueError` (wrong shape, non-digits, out-of-range
fields, or a day that does not exist in its month). -/
def strptime (s : String) : Option DateTime :=
  match splitOnChar spaceChar s.data with
  | [d, t] =>
    match splitOnChar dashChar d, splitOnChar colonChar t with
    | [ys, mos, ds], [hs, mis, ss] =>
      match parseNat? ys, parseNat? mos, parseNat? ds,
          parseNat? hs, parseNat? mis, parseNat? ss with
      | some y, some mo, some dd, some h, some mi, some sec =>
        if ys.length ≤ 4 ∧ mos.length ≤ 2 ∧ ds.length ≤ 2 ∧
            hs.length ≤ 2 ∧ mis.length ≤ 2 ∧ ss.length ≤ 2 ∧
            DateTime.Valid ⟨y, mo, dd, h, mi, sec⟩ then
          some ⟨y, mo, dd, h, mi, sec⟩
        else none
      | _, _, _, _, _, _ => none
    | _, _ => none
  | _ => none

/-- Python `str.upper()` (character-wise, as the program only feeds it
ASCII plates and type names). -/
def pyUpper (s : String) : String := ⟨s.data.map Char.toUpper⟩

/-- Python `str.lower()` (character-wise). -/
def pyLower (s : String) : String := ⟨s.data.map Char.toLower⟩

/-! ## The `Vehiculo` class -/

/-- In-memory state of a `Vehiculo` object.  `hora_entrada` is stored as
the formatted string, exactly as in the source. -/
structure Vehiculo where
  placa : String
  tipo : String
  hora_entrada : String
  cliente : String
  visitas : Nat
  lat : Option ℚ
  lon : Option ℚ
deriving DecidableEq, Repr

/-- The `Vehiculo.__init__` constructor with an explicit entry-time
string (the Python default argument `None` means "format
`datetime.now()`", which a caller of this model performs via
`strftime`).  It normalises `placa` to upper case and `tipo`, `cliente`
to lower case. -/
def Vehiculo.make (placa tipo hora_entrada cliente : String) (visitas : Nat)
    (lat lon : Option ℚ) : Vehiculo :=
  { placa := pyUpper placa, tipo := pyLower tipo, hora_entrada := hora_entrada,
    cliente := pyLower cliente, visitas := visitas, lat := lat, lon := lon }

/-- The dict produced by `Vehiculo.to_dict` (one JSON object in the
`"vehiculos"` array). -/
structure VehDict where
  placa : String
  tipo : String
  hora_entrada : String
  cliente : String
  visitas : Nat
  lat : Option ℚ
  lon : Option ℚ
deriving DecidableEq, Repr

def Vehiculo.to_dict (v : Vehiculo) : VehDict :=
  ⟨v.placa, v.tipo, v.hora_entrada, v.cliente, v.visitas, v.lat, v.lon⟩

/-- Method `Vehiculo.from_dict`: rebuilds through the constructor, which
re-applies the case normalisations. -/
def Vehiculo.from_dict (d : VehDict) : Vehiculo :=
  Vehiculo.make d.placa d.tipo d.hora_entrada d.cliente d.visitas d.lat d.lon

/-! ## The `Parqueadero` class -/

/-- One completed-session record (the `registro` dict appended to
`historial`). -/
structure Registro where
  placa : String
  tipo : String
  cliente : String
  hora_entrada : String
  hora_salida : String
  horas : Int
  total : ℚ
  operador : Option String
  lat : Option ℚ
  lon : Option ℚ
deriving DecidableEq, Repr

/-- The mutable state of a `Parqueadero` object. -/
structure Parqueadero where
  cupos : List (String × Nat)
  vehiculos : List Vehiculo
  historial : List Registro
  operador_actual : Option String
deriving DecidableEq, Repr

/-- The class attribute `tarifas = {"carro": 2000, "moto": 1000,
"bici": 500}`. -/
def tarifas : List (String × ℚ) := [("carro", 2000), ("moto", 1000), ("bici", 500)]

/-- Constructor `Parqueadero.__init__(cupos)` on a fresh data file (`cargar_datos`
finds no file and leaves the state untouched). -/
def Parqueadero.inicial (cupos : List (String × Nat)) : Parqueadero :=
  { cupos := cupos, vehiculos := [], historial := [], operador_actual := none }

/-- Python `list.remove(v)`: drop the first element equal to `v`.  (The
source removes the very object it found; since that object is the first
plate match, structural first-occurrence removal coincides with it.) -/
def removeFirst {α : Type} [DecidableEq α] : List α → α → List α
  | [], _ => []
  | x :: xs, v => if x = v then xs else x :: removeFirst xs v

/-- The `visitas_previas` count in `registrar_entrada`: completed sessions sharing
the plate, compared case-insensitively. -/
def visitasPrevias (p : Parqueadero) (veh : Vehiculo) : Nat :=
  (p.historial.filter (fun r => pyUpper r.placa = pyUpper veh.placa)).length

/-- The accepted vehicle as `registrar_entrada` mutates it: `visitas`
recomputed from the history, and `cliente` overwritten with
`"frecuente"` whenever `visitas >= 5` (the source performs this
assignment unconditionally, with no exception for `"mensual"`). -/
def entryVeh (p : Parqueadero) (veh : Vehiculo) : Vehiculo :=
  if visitasPrevias p veh + 1 ≥ 5 then
    { veh with visitas := visitasPrevias p veh + 1, cliente := "frecuente" }
  else
    { veh with visitas := visitasPrevias p veh + 1 }

/-- The advisory alert list built at the end of a successful
`registrar_entrada`, evaluated on the already-updated capacity map. -/
def entryAlerts (cupos1 : List (String × Nat)) (tipo : String) (veh2 : Vehiculo) :
    List String :=
  (if dGet cupos1 tipo 0 = 1 then ["Alerta: queda 1 cupo para " ++ tipo ++ "s."] else [])
    ++ (if veh2.cliente = "frecuente"
        then ["Cliente frecuente: descuento 10% en salida."] else [])

/-- Method `Parqueadero.registrar_entrada(veh)`: returns the `(ok, alerts)`
pair together with the updated state. -/
def registrar_entrada (p : Parqueadero) (veh : Vehiculo) :
    (Bool × List String) × Parqueadero :=
  let tipo := veh.tipo
  let available := dGet p.cupos tipo 0
  if available ≤ 0 then
    ((false, ["No hay cupos disponibles para ese tipo de vehículo."]), p)
  else
    let veh2 : Vehiculo := entryVeh p veh
    let cupos1 := dSet p.cupos tipo (available - 1)
    let p1 : Parqueadero := { p with vehiculos := p.vehiculos ++ [veh2], cupos := cupos1 }
    ((true, entryAlerts cupos1 tipo veh2), p1)

/-- The `registro` dict that `registrar_salida` builds for the vehicle
it is checking out: elapsed seconds between the parsed entry time and
`now`, hours floored and clamped to at least 1, tariff lookup with the
1000 default, and the tier adjustments to the total. -/
def mkRegistro (p : Parqueadero) (v : Vehiculo) (now entrada : DateTime) : Registro :=
  let segundos : Int := (toSeconds now : Int) - (toSeconds entrada : Int)
  let horas : Int := max 1 (Int.fdiv segundos 3600)
  let tarifa : ℚ := dGet tarifas v.tipo 1000
  let total0 : ℚ := horas * tarifa
  let total : ℚ :=
    if v.cliente = "frecuente" then total0 * 0.9
    else if v.cliente = "mensual" then 0
    else total0
  { placa := v.placa, tipo := v.tipo, cliente := v.cliente,
    hora_entrada := v.hora_entrada, hora_salida := strftime now,
    horas := horas, total := total, operador := p.operador_actual,
    lat := v.lat, lon := v.lon }

/-- Method `Parqueadero.registrar_salida(placa)`, with `datetime.now()` passed
in as `now`.  Returns the `registro` dict (or `None`) and the updated
state; the `none, unchanged` pair also covers the `ValueError` raise on
an unparseable stored entry time, which likewise mutates nothing. -/
def registrar_salida (p : Parqueadero) (placa : String) (now : DateTime) :
    Option Registro × Parqueadero :=
  let placaU := pyUpper placa
  match p.vehiculos.find? (fun v => v.placa == placaU) with
  | none => (none, p)
  | some v =>
    match strptime v.hora_entrada with
    | none => (none, p)
    | some entrada =>
      let registro : Registro := mkRegistro p v now entrada
      (some registro,
        { p with vehiculos := removeFirst p.vehiculos v,
                 cupos := dSet p.cupos v.tipo (dGet p.cupos v.tipo 0 + 1),
                 historial := p.historial ++ [registro] })

/-- First loop of `Parqueadero.alertas`: one overstay alert per active
vehicle parked strictly more than 24 hours; `none` models the
`ValueError` raise on an unparseable entry time. -/
def overstayScan (now : DateTime) : List Vehiculo → Option (List String)
  | [] => some []
  | v :: vs =>
    match strptime v.hora_entrada with
    | none => none
    | some entrada =>
      match overstayScan now vs with
      | none => none
      | some rest =>
        if (toSeconds now : Int) - (toSeconds entrada : Int) > 86400 then
          some (("Vehículo " ++ v.placa ++ " lleva más de 24 horas estacionado.") :: rest)
        else some rest

/-- Second loop of `Parqueadero.alertas`: one low-capacity alert per
type whose remaining count is exactly 1. -/
def capacityScan : List (String × Nat) → List String
  | [] => []
  | (tipo, cupo) :: rest =>
    if cupo = 1 then ("Solo queda 1 cupo para " ++ tipo ++ "s.") :: capacityScan rest
    else capacityScan rest

/-- Method `Parqueadero.alertas()`.  It only reads the state (the method body
performs no assignment), so the model returns just the alert list. -/
def alertas (p : Parqueadero) (now : DateTime) : Option (List String) :=
  match overstayScan now p.vehiculos with
  | none => none
  | some ov => some (ov ++ capacityScan p.cupos)

/-- The JSON document written by `guardar_datos` / read by
`cargar_datos`. -/
structure Payload where
  cupos : List (String × Nat)
  vehiculos : List VehDict
  historial : List Registro
deriving DecidableEq, Repr

/-- Method `Parqueadero.guardar_datos`: serialise the three persisted fields. -/
def guardar_datos (p : Parqueadero) : Payload :=
  { cupos := p.cupos, vehiculos := p.vehiculos.map Vehiculo.to_dict,
    historial := p.historial }

/-- Method `Parqueadero.cargar_datos` on an existing well-formed file holding
`data`: overwrite `cupos`, rebuild `vehiculos` through
`Vehiculo.from_dict`, overwrite `historial`. -/
def cargar_datos (data : Payload) (p : Parqueadero) : Parqueadero :=
  { p with cupos := data.cupos,
           vehiculos := data.vehiculos.map Vehiculo.from_dict,
           historial := data.historial }

/-- States reachable from the initial configuration by any sequence of
`registrar_entrada` and `registrar_salida` calls. -/
inductive Reachable (cfg : List (String × Nat)) : Parqueadero → Prop where
  | init : Reachable cfg (Parqueadero.inicial cfg)
  | entry (p : Parqueadero) (veh : Vehiculo) :
      Reachable cfg p → Reachable cfg (registrar_entrada p veh).2
  | exits (p : Parqueadero) (placa : String) (now : DateTime) :
      Reachable cfg p → Reachable cfg (registrar_salida p placa now).2

/-! ## Dictionary and list lemmas -/

theorem dGet_dSet {β : Type} (m : List (String × β)) (key t : String) (val : β) (d : β) :
    dGet (dSet m key val) t d = if key = t then val else dGet m t d := by
  induction m with
  | nil => by_cases ht : key = t <;> simp [dGet, dSet, ht]
  | cons kv m ih =>
    obtain ⟨k, v⟩ := kv
    by_cases hk : k = key
    · subst hk
      by_cases ht : k = t <;> simp [dGet, dSet, ht]
    · have hk' : key ≠ k := fun h => hk h.symm
      by_cases ht : k = t
      · subst ht
        simp [dGet, dSet, hk, hk']
      · simp [dGet, dSet, hk, ht, ih]

theorem removeFirst_countP {α : Type} [DecidableEq α] (q : α → Bool) (v : α)
    (l : List α) (h : v ∈ l) :
    (removeFirst l v).countP q + (if q v then 1 else 0) = l.countP q := by
  induction l with
  | nil => cases h
  | cons x xs ih =>
    by_cases hx : x = v
    · subst hx
      simp only [removeFirst, if_pos rfl, List.countP_cons]
      cases hqx : q x <;> simp [hqx]
    · have hmem : v ∈ xs := by
        rcases List.mem_cons.mp h with h' | h'
        · exact absurd h'.symm hx
        · exact h'
      simp only [removeFirst, if_neg hx, List.countP_cons]
      have := ih hmem
      cases hqx : q x <;> cases hqv : q v <;> simp [hqx, hqv] at this ⊢ <;> omega

theorem find?_append_first {α : Type} (pre post : List α) (v : α) (pr : α → Bool)
    (hpre : ∀ u ∈ pre, pr u = false) (hv : pr v = true) :
    (pre ++ v :: post).find? pr = some v := by
  induction pre with
  | nil => simp [List.find?_cons, hv]
  | cons x xs ih =>
    have hx := hpre x (by simp)
    simp only [List.cons_append, List.find?_cons, hx]
    exact ih (fun u hu => hpre u (by simp [hu]))

theorem removeFirst_append {α : Type} [DecidableEq α] (pre post : List α) (v : α)
    (hpre : ∀ u ∈ pre, u ≠ v) :
    removeFirst (pre ++ v :: post) v = pre ++ post := by
  induction pre with
  | nil => simp [removeFirst]
  | cons x xs ih =>
    simp only [List.cons_append, removeFirst, if_neg (hpre x (by simp)), List.append_eq]
    rw [ih (fun u hu => hpre u (by simp [hu]))]

/-! ## Branch equations for the two mutating operations -/

theorem registrar_entrada_zero (p : Parqueadero) (veh : Vehiculo)
    (h : dGet p.cupos veh.tipo 0 = 0) :
    registrar_entrada p veh =
      ((false, ["No hay cupos disponibles para ese tipo de vehículo."]), p) := by
  unfold registrar_entrada
  rw [if_pos (by omega)]

theorem registrar_entrada_pos (p : Parqueadero) (veh : Vehiculo)
    (h : 0 < dGet p.cupos veh.tipo 0) :
    registrar_entrada p veh =
      ((true, entryAlerts (dSet p.cupos veh.tipo (dGet p.cupos veh.tipo 0 - 1))
          veh.tipo (entryVeh p veh)),
       { p with vehiculos := p.vehiculos ++ [entryVeh p veh],
                cupos := dSet p.cupos veh.tipo (dGet p.cupos veh.tipo 0 - 1) }) := by
  unfold registrar_entrada
  rw [if_neg (by omega)]

theorem registrar_salida_nomatch (p : Parqueadero) (placa : String) (now : DateTime)
    (hf : p.vehiculos.find? (fun v => v.placa == pyUpper placa) = none) :
    registrar_salida p placa now = (none, p) := by
  simp only [registrar_salida, hf]

theorem registrar_salida_noparse (p : Parqueadero) (placa : String) (now : DateTime)
    (v : Vehiculo)
    (hf : p.vehiculos.find? (fun u => u.placa == pyUpper placa) = some v)
    (hp : strptime v.hora_entrada = none) :
    registrar_salida p placa now = (none, p) := by
  simp only [registrar_salida, hf, hp]

theorem registrar_salida_eq (p : Parqueadero) (placa : String) (now : DateTime)
    (v : Vehiculo) (entrada : DateTime)
    (hf : p.vehiculos.find? (fun u => u.placa == pyUpper placa) = some v)
    (hp : strptime v.hora_entrada = some entrada) :
    registrar_salida p placa now =
      (some (mkRegistro p v now entrada),
       { p with vehiculos := removeFirst p.vehiculos v,
                cupos := dSet p.cupos v.tipo (dGet p.cupos v.tipo 0 + 1),
                historial := p.historial ++ [mkRegistro p v now entrada] }) := by
  simp only [registrar_salida, hf, hp]

theorem entryVeh_tipo (p : Parqueadero) (veh : Vehiculo) :
    (entryVeh p veh).tipo = veh.tipo := by
  unfold entryVeh
  split <;> rfl

theorem entryVeh_placa (p : Parqueadero) (veh : Vehiculo) :
    (entryVeh p veh).placa = veh.placa := by
  unfold entryVeh
  split <;> rfl

theorem entryVeh_visitas (p : Parqueadero) (veh : Vehiculo) :
    (entryVeh p veh).visitas = visitasPrevias p veh + 1 := by
  unfold entryVeh
  split <;> rfl

theorem entryVeh_cliente (p : Parqueadero) (veh : Vehiculo) :
    (entryVeh p veh).cliente =
      if 5 ≤ visitasPrevias p veh + 1 then "frecuente" else veh.cliente := by
  unfold entryVeh
  split <;> simp_all

/-! ## Characterisations of the alert scans -/

theorem overstayScan_eq (now : DateTime) (ent : Vehiculo → DateTime) (l : List Vehiculo)
    (hparse : ∀ v ∈ l, strptime v.hora_entrada = some (ent v)) :
    overstayScan now l =
      some ((l.filter
          (fun v => decide ((86400 : Int) < (toSeconds now : Int) - (toSeconds (ent v) : Int)))).map
        (fun v => "Vehículo " ++ v.placa ++ " lleva más de 24 horas estacionado.")) := by
  induction l with
  | nil => rfl
  | cons x xs ih =>
    have hx := hparse x (by simp)
    have ihx := ih (fun v hv => hparse v (by simp [hv]))
    simp only [overstayScan, hx, ihx, List.filter_cons]
    by_cases hc : (86400 : Int) < (toSeconds now : Int) - (toSeconds (ent x) : Int)
    · simp [hc]
    · simp [hc]

theorem capacityScan_eq (m : List (String × Nat)) :
    capacityScan m =
      (m.filter (fun kc => kc.2 == 1)).map
        (fun kc => "Solo queda 1 cupo para " ++ kc.1 ++ "s.") := by
  induction m with
  | nil => rfl
  | cons kv m ih =>
    obtain ⟨k, c⟩ := kv
    by_cases hc : c = 1 <;> simp [capacityScan, hc, ih]

/-! ## Claim C1: the per-type capacity invariant -/

/-- C1.  In every state reachable from the initial configuration by
`registrar_entrada` / `registrar_salida`, for every vehicle type the
remaining capacity plus the number of active sessions of that type
equals the configured total for that type. -/
theorem capacity_invariant (cfg : List (String × Nat)) (p : Parqueadero)
    (h : Reachable cfg p) (t : String) :
    dGet p.cupos t 0 + p.vehiculos.countP (fun v => v.tipo == t) = dGet cfg t 0 := by
  induction h with
  | init => simp [Parqueadero.inicial]
  | entry p veh hr ih =>
    by_cases h0 : dGet p.cupos veh.tipo 0 = 0
    · rw [registrar_entrada_zero p veh h0]
      exact ih
    · rw [registrar_entrada_pos p veh (Nat.pos_of_ne_zero h0)]
      dsimp only
      rw [List.countP_append, dGet_dSet]
      have htipo := entryVeh_tipo p veh
      have h0' : 0 < dGet p.cupos veh.tipo 0 := Nat.pos_of_ne_zero h0
      by_cases ht : veh.tipo = t
      · subst ht
        simp [htipo] at ih ⊢
        omega
      · simp [ht, htipo, fun h => ht h] at ih ⊢
        omega
  | exits p placa now hr ih =>
    cases hf : p.vehiculos.find? (fun v => v.placa == pyUpper placa) with
    | none =>
      rw [registrar_salida_nomatch p placa now hf]
      exact ih
    | some v =>
      cases hp : strptime v.hora_entrada with
      | none =>
        rw [registrar_salida_noparse p placa now v hf hp]
        exact ih
      | some entrada =>
        rw [registrar_salida_eq p placa now v entrada hf hp]
        dsimp only
        rw [dGet_dSet]
        have hmem : v ∈ p.vehiculos := List.mem_of_find?_eq_some hf
        have hcount := removeFirst_countP (fun u => u.tipo == t) v p.vehiculos hmem
        by_cases ht : v.tipo = t
        · subst ht
          simp at hcount ih ⊢
          omega
        · simp [ht] at hcount ih ⊢
          omega

def cfgW1 : List (String × Nat) := [("carro", 2), ("moto", 1)]

def vehW1 : Vehiculo := Vehiculo.make "abc123" "carro" "2024-01-01 08:00:00" "normal" 0 none none

def pW1 : Parqueadero := (registrar_entrada (Parqueadero.inicial cfgW1) vehW1).2

/-- Witness for C1: the invariant evaluated after one concrete entry. -/
theorem capacity_invariant_witness :
    dGet pW1.cupos "carro" 0 + pW1.vehiculos.countP (fun v => v.tipo == "carro") =
      dGet cfgW1 "carro" 0 :=
  capacity_invariant cfgW1 pW1
    (Reachable.entry (Parqueadero.inicial cfgW1) vehW1 Reachable.init) "carro"

/-! ## Claim C5: entry with exhausted capacity -/

/-- C5.  When the remaining capacity for the vehicle's type is zero,
`registrar_entrada` rejects the entry (the `(False, [message])` result
is the source's `CapacityExhausted` signal; the single string is the
error message, not an advisory alert) and returns the ledger state
completely unchanged. -/
theorem entrada_capacity_exhausted (p : Parqueadero) (veh : Vehiculo)
    (h : dGet p.cupos veh.tipo 0 = 0) :
    registrar_entrada p veh =
      ((false, ["No hay cupos disponibles para ese tipo de vehículo."]), p) :=
  registrar_entrada_zero p veh h

def pW5 : Parqueadero :=
  { cupos := [("carro", 0), ("moto", 3)],
    vehiculos := [], historial := [], operador_actual := none }

def vehW5 : Vehiculo := Vehiculo.make "xyz789" "carro" "2024-01-01 09:00:00" "normal" 0 none none

/-- Witness for C5 at a concrete exhausted state. -/
theorem entrada_capacity_exhausted_witness :
    dGet pW5.cupos vehW5.tipo 0 = 0 ∧
    registrar_entrada pW5 vehW5 =
      ((false, ["No hay cupos disponibles para ese tipo de vehículo."]), pW5) :=
  ⟨by decide, entrada_capacity_exhausted pW5 vehW5 (by decide)⟩

/-! ## Claim C6: exit for a plate that is not active -/

/-- C6.  When no active session's plate equals the (normalised) plate
being checked out, `registrar_salida` returns the `SessionNotFound`
signal (`None` in the source) and leaves `vehiculos`, `cupos` and
`historial` all unchanged. -/
theorem salida_not_found (p : Parqueadero) (placa : String) (now : DateTime)
    (h : ∀ v ∈ p.vehiculos, v.placa ≠ pyUpper placa) :
    registrar_salida p placa now = (none, p) := by
  have hf : p.vehiculos.find? (fun v => v.placa == pyUpper placa) = none := by
    apply List.find?_eq_none.mpr
    intro v hv
    simpa using h v hv
  exact registrar_salida_nomatch p placa now hf

def pW6 : Parqueadero :=
  { cupos := [("carro", 1)],
    vehiculos := [Vehiculo.make "abc123" "carro" "2024-01-01 08:00:00" "normal" 0 none none],
    historial := [], operador_actual := some "ana" }

/-- Witness for C6 at a concrete state holding one unrelated session. -/
theorem salida_not_found_witness :
    (∀ v ∈ pW6.vehiculos, v.placa ≠ pyUpper "zz9") ∧
    registrar_salida pW6 "zz9" ⟨2024, 1, 1, 9, 0, 0⟩ = (none, pW6) :=
  ⟨by decide, salida_not_found pW6 "zz9" ⟨2024, 1, 1, 9, 0, 0⟩ (by decide)⟩

/-! ## Claim C2: visit count and tier on entry

The source sets `veh.cliente = "frecuente"` whenever `veh.visitas >= 5`
with no exception for a caller-supplied `"mensual"` tier, so the claim's
"monthly is never auto-downgraded" clause fails; the counterexample
below exhibits it, and the amended theorem states what the code does. -/

def regAAA : Registro :=
  { placa := "AAA111", tipo := "carro", cliente := "normal",
    hora_entrada := "2024-01-01 08:00:00", hora_salida := "2024-01-01 09:00:00",
    horas := 1, total := 2000, operador := some "ana", lat := none, lon := none }

def pC2 : Parqueadero :=
  { cupos := [("carro", 5)], vehiculos := [],
    historial := [regAAA, regAAA, regAAA, regAAA], operador_actual := some "ana" }

def vehC2 : Vehiculo := Vehiculo.make "aaa111" "carro" "2024-01-05 10:00:00" "mensual" 0 none none

/-- C2 counterexample: a session entered with the caller-set tier
`"mensual"` and 4 prior history records for its plate is accepted with
`visitas = 5` and its tier overwritten to `"frecuente"` — the claim said
the tier would remain `"mensual"`. -/
theorem entrada_mensual_downgraded :
    vehC2.cliente = "mensual" ∧
    (pC2.historial.filter (fun r => pyUpper r.placa = pyUpper vehC2.placa)).length = 4 ∧
    (registrar_entrada pC2 vehC2).1.1 = true ∧
    (registrar_entrada pC2 vehC2).2.vehiculos.map (fun v => (v.visitas, v.cliente)) =
      [(5, "frecuente")] := by
  refine ⟨by decide, by decide, by decide, by decide⟩

/-- C2 (amended).  On a successful entry the accepted session's
`visitas` equals 1 plus the number of history records whose plate
matches case-insensitively, and if `visitas >= 5` the tier is set to
`"frecuente"` regardless of the caller-supplied tier (a `"mensual"`
tier is overwritten too); below 5 the caller's tier is kept. -/
theorem entrada_visitas_tier (p : Parqueadero) (veh : Vehiculo)
    (h : 0 < dGet p.cupos veh.tipo 0) :
    (registrar_entrada p veh).1.1 = true ∧
    (registrar_entrada p veh).2.vehiculos = p.vehiculos ++ [entryVeh p veh] ∧
    (entryVeh p veh).visitas =
      1 + (p.historial.filter (fun r => pyUpper r.placa = pyUpper veh.placa)).length ∧
    (5 ≤ (entryVeh p veh).visitas → (entryVeh p veh).cliente = "frecuente") ∧
    ((entryVeh p veh).visitas < 5 → (entryVeh p veh).cliente = veh.cliente) := by
  rw [registrar_entrada_pos p veh h]
  refine ⟨rfl, rfl, ?_, ?_, ?_⟩
  · rw [entryVeh_visitas]
    unfold visitasPrevias
    omega
  · intro h5
    rw [entryVeh_visitas] at h5
    rw [entryVeh_cliente, if_pos h5]
  · intro h5
    rw [entryVeh_visitas] at h5
    rw [entryVeh_cliente, if_neg (by omega)]

/-- Witness for the amended C2 at the concrete monthly-tier entry. -/
theorem entrada_visitas_tier_witness :
    0 < dGet pC2.cupos vehC2.tipo 0 ∧
    ((registrar_entrada pC2 vehC2).1.1 = true ∧
     (registrar_entrada pC2 vehC2).2.vehiculos = pC2.vehiculos ++ [entryVeh pC2 vehC2] ∧
     (entryVeh pC2 vehC2).visitas =
       1 + (pC2.historial.filter (fun r => pyUpper r.placa = pyUpper vehC2.placa)).length ∧
     (5 ≤ (entryVeh pC2 vehC2).visitas → (entryVeh pC2 vehC2).cliente = "frecuente") ∧
     ((entryVeh pC2 vehC2).visitas < 5 → (entryVeh pC2 vehC2).cliente = vehC2.cliente)) :=
  ⟨by decide, entrada_visitas_tier pC2 vehC2 (by decide)⟩

/-! ## Claim C3: billed hours -/

/-- C3.  Every `registro` produced by `registrar_salida` bills
`max(1, floor(elapsedSeconds / 3600))` hours; in particular 600 elapsed
seconds (10 minutes) bill exactly 1 hour and 7500 elapsed seconds
(125 minutes) bill exactly 2 hours. -/
theorem salida_billed_hours (p : Parqueadero) (placa : String) (now : DateTime)
    (v : Vehiculo) (entrada : DateTime) (r : Registro)
    (hf : p.vehiculos.find? (fun u => u.placa == pyUpper placa) = some v)
    (hp : strptime v.hora_entrada = some entrada)
    (hr : (registrar_salida p placa now).1 = some r) :
    r.horas = max 1 (Int.fdiv ((toSeconds now : Int) - (toSeconds entrada : Int)) 3600) ∧
    ((toSeconds now : Int) - (toSeconds entrada : Int) = 600 → r.horas = 1) ∧
    ((toSeconds now : Int) - (toSeconds entrada : Int) = 7500 → r.horas = 2) := by
  rw [registrar_salida_eq p placa now v entrada hf hp] at hr
  have hrr : r = mkRegistro p v now entrada := (Option.some.inj hr).symm
  subst hrr
  simp only [mkRegistro]
  refine ⟨trivial, ?_, ?_⟩
  · intro he
    rw [he]
    decide
  · intro he
    rw [he]
    decide

def vW3 : Vehiculo := Vehiculo.make "aaa111" "carro" "2024-01-01 08:00:00" "normal" 1 none none

def pW3 : Parqueadero :=
  { cupos := [("carro", 0)], vehiculos := [vW3], historial := [], operador_actual := some "ana" }

def nowW3 : DateTime := ⟨2024, 1, 1, 8, 10, 0⟩

def entW3 : DateTime := ⟨2024, 1, 1, 8, 0, 0⟩

def rW3 : Registro := mkRegistro pW3 vW3 nowW3 entW3

/-- Witness for C3: a 10-minute stay bills exactly one hour. -/
theorem salida_billed_hours_witness :
    (registrar_salida pW3 "aaa111" nowW3).1 = some rW3 ∧
    (toSeconds nowW3 : Int) - (toSeconds entW3 : Int) = 600 ∧
    rW3.horas = 1 := by
  have hr : (registrar_salida pW3 "aaa111" nowW3).1 = some rW3 := by
    rw [registrar_salida_eq pW3 "aaa111" nowW3 vW3 entW3 (by decide) (by decide)]
    rfl
  have h := salida_billed_hours pW3 "aaa111" nowW3 vW3 entW3 rW3
    (by decide) (by decide) hr
  exact ⟨hr, by decide, h.2.1 (by decide)⟩

/-! ## Claim C4: the fee -/

/-- C4.  Every `registro` produced by `registrar_salida` is charged
`billedHours * tariff` (tariff looked up by type with default 1000),
multiplied by 0.9 for the `"frecuente"` tier and forced to 0 for the
`"mensual"` tier; in particular 3 billed hours at tariff 1000 on the
frequent tier cost 2700, and a monthly session always pays 0. -/
theorem salida_fee (p : Parqueadero) (placa : String) (now : DateTime)
    (v : Vehiculo) (entrada : DateTime) (r : Registro)
    (hf : p.vehiculos.find? (fun u => u.placa == pyUpper placa) = some v)
    (hp : strptime v.hora_entrada = some entrada)
    (hr : (registrar_salida p placa now).1 = some r) :
    r.total =
      (if v.cliente = "frecuente" then (r.horas : ℚ) * dGet tarifas v.tipo 1000 * 0.9
       else if v.cliente = "mensual" then 0
       else (r.horas : ℚ) * dGet tarifas v.tipo 1000) ∧
    (v.cliente = "frecuente" → r.horas = 3 → dGet tarifas v.tipo 1000 = 1000 →
      r.total = 2700) ∧
    (v.cliente = "mensual" → r.total = 0) := by
  rw [registrar_salida_eq p placa now v entrada hf hp] at hr
  have hrr : r = mkRegistro p v now entrada := (Option.some.inj hr).symm
  subst hrr
  simp only [mkRegistro]
  refine ⟨trivial, ?_, ?_⟩
  · intro hfre h3 htar
    simp only [hfre, h3, htar]
    norm_num
  · intro hm
    rw [hm, if_neg (by decide : ¬ ("mensual" = "frecuente")), if_pos rfl]

def vW4 : Vehiculo := Vehiculo.make "fff333" "moto" "2024-01-01 08:00:00" "frecuente" 5 none none

def pW4 : Parqueadero :=
  { cupos := [("moto", 2)], vehiculos := [vW4], historial := [], operador_actual := some "ana" }

def nowW4 : DateTime := ⟨2024, 1, 1, 11, 5, 0⟩

def entW4 : DateTime := ⟨2024, 1, 1, 8, 0, 0⟩

def rW4 : Registro := mkRegistro pW4 vW4 nowW4 entW4

/-- Witness for C4: a frequent-tier moto parked 3 hours 5 minutes is
billed 3 hours and pays 2700. -/
theorem salida_fee_witness :
    rW4.total = 2700 ∧ rW4.horas = 3 := by
  have hr : (registrar_salida pW4 "fff333" nowW4).1 = some rW4 := by
    rw [registrar_salida_eq pW4 "fff333" nowW4 vW4 entW4 (by decide) (by decide)]
    rfl
  have h := salida_fee pW4 "fff333" nowW4 vW4 entW4 rW4
    (by decide) (by decide) hr
  exact ⟨h.2.1 (by decide) (by decide) rfl, by decide⟩

/-! ## Claim C7: persistence round-trip -/

theorem from_dict_to_dict (v : Vehiculo)
    (h1 : pyUpper v.placa = v.placa) (h2 : pyLower v.tipo = v.tipo)
    (h3 : pyLower v.cliente = v.cliente) :
    Vehiculo.from_dict (Vehiculo.to_dict v) = v := by
  cases v with
  | mk placa tipo he cliente visitas lat lon =>
    simp only [Vehiculo.from_dict, Vehiculo.to_dict, Vehiculo.make] at h1 h2 h3 ⊢
    rw [h1, h2, h3]

theorem map_from_to (l : List Vehiculo)
    (h : ∀ v ∈ l, pyUpper v.placa = v.placa ∧ pyLower v.tipo = v.tipo ∧
      pyLower v.cliente = v.cliente) :
    (l.map Vehiculo.to_dict).map Vehiculo.from_dict = l := by
  induction l with
  | nil => rfl
  | cons x xs ih =>
    have hx := h x (by simp)
    simp only [List.map_cons]
    rw [from_dict_to_dict x hx.1 hx.2.1 hx.2.2, ih (fun v hv => h v (by simp [hv]))]

/-- C7.  Loading the payload written by `guardar_datos` reproduces the
capacity map, the active sessions (their entry-time strings, hence the
exact `YYYY-MM-DD HH:MM:SS` formatting, and their optional coordinates
included) and the history exactly.  The hypothesis states that every
stored vehicle carries the constructor's case normalisations, which
`Vehiculo.__init__` guarantees for every `Vehiculo` object the program
can ever hold. -/
theorem save_load_roundtrip (p q : Parqueadero)
    (hnorm : ∀ v ∈ p.vehiculos,
      pyUpper v.placa = v.placa ∧ pyLower v.tipo = v.tipo ∧ pyLower v.cliente = v.cliente) :
    (cargar_datos (guardar_datos p) q).cupos = p.cupos ∧
    (cargar_datos (guardar_datos p) q).vehiculos = p.vehiculos ∧
    (cargar_datos (guardar_datos p) q).historial = p.historial := by
  refine ⟨rfl, ?_, rfl⟩
  show (p.vehiculos.map Vehiculo.to_dict).map Vehiculo.from_dict = p.vehiculos
  exact map_from_to p.vehiculos hnorm

def pW7 : Parqueadero :=
  { cupos := [("carro", 4), ("moto", 1)],
    vehiculos := [Vehiculo.make "abc123" "carro" "2024-01-01 08:00:00" "normal" 2
      (some (6267 / 1000)) (some (-75567 / 1000))],
    historial := [regAAA], operador_actual := some "ana" }

/-- Witness for C7 on a state with coordinates and one history record. -/
theorem save_load_roundtrip_witness :
    (∀ v ∈ pW7.vehiculos,
      pyUpper v.placa = v.placa ∧ pyLower v.tipo = v.tipo ∧ pyLower v.cliente = v.cliente) ∧
    ((cargar_datos (guardar_datos pW7) (Parqueadero.inicial [])).cupos = pW7.cupos ∧
     (cargar_datos (guardar_datos pW7) (Parqueadero.inicial [])).vehiculos = pW7.vehiculos ∧
     (cargar_datos (guardar_datos pW7) (Parqueadero.inicial [])).historial = pW7.historial) :=
  ⟨by decide, save_load_roundtrip pW7 (Parqueadero.inicial []) (by decide)⟩

/-! ## Claim C8: the alert scan -/

/-- C8.  `alertas` returns exactly one overstay alert per active session
whose elapsed time exceeds 24 hours (86400 seconds, strictly) followed
by exactly one low-capacity alert per capacity entry standing at exactly
1 — entries at 0 or at 2 and above produce nothing.  The method only
reads the state: in this embedding `alertas` is a pure function of the
state, so it cannot mutate it. -/
theorem alertas_spec (p : Parqueadero) (now : DateTime) (ent : Vehiculo → DateTime)
    (hparse : ∀ v ∈ p.vehiculos, strptime v.hora_entrada = some (ent v)) :
    alertas p now =
      some ((p.vehiculos.filter
          (fun v => decide ((86400 : Int) < (toSeconds now : Int) - (toSeconds (ent v) : Int)))).map
            (fun v => "Vehículo " ++ v.placa ++ " lleva más de 24 horas estacionado.")
        ++ (p.cupos.filter (fun kc => kc.2 == 1)).map
            (fun kc => "Solo queda 1 cupo para " ++ kc.1 ++ "s.")) := by
  simp only [alertas, overstayScan_eq now ent p.vehiculos hparse, capacityScan_eq]

def vO : Vehiculo := Vehiculo.make "old111" "carro" "2024-01-01 08:00:00" "normal" 1 none none

def vN : Vehiculo := Vehiculo.make "new222" "moto" "2024-01-02 09:30:00" "normal" 1 none none

def pW8 : Parqueadero :=
  { cupos := [("carro", 1), ("moto", 0), ("bici", 2)],
    vehiculos := [vO, vN], historial := [], operador_actual := none }

def nowW8 : DateTime := ⟨2024, 1, 2, 10, 0, 0⟩

def entW8 (v : Vehiculo) : DateTime :=
  if v.placa = "OLD111" then ⟨2024, 1, 1, 8, 0, 0⟩ else ⟨2024, 1, 2, 9, 30, 0⟩

/-- Witness for C8: one overstayed session of two, one type at exactly 1
slot among three. -/
theorem alertas_spec_witness :
    (∀ v ∈ pW8.vehiculos, strptime v.hora_entrada = some (entW8 v)) ∧
    alertas pW8 nowW8 =
      some ["Vehículo OLD111 lleva más de 24 horas estacionado.",
            "Solo queda 1 cupo para carros."] := by
  have h := alertas_spec pW8 nowW8 entW8 (by decide)
  refine ⟨by decide, ?_⟩
  rw [h]
  decide

/-! ## Claim C9: plate uniqueness among active sessions -/

def cfg9 : List (String × Nat) := [("carro", 2)]

def veh9 : Vehiculo := Vehiculo.make "abc123" "carro" "2024-01-01 08:00:00" "normal" 0 none none

def p9a : Parqueadero := (registrar_entrada (Parqueadero.inicial cfg9) veh9).2

def p9 : Parqueadero := (registrar_entrada p9a veh9).2

/-- C9 counterexample: `registrar_entrada` never checks whether the
plate is already parked, so entering the same plate twice (capacity
permitting) yields a reachable state whose active set holds two sessions
with the same plate — refuting uniqueness among currently-parked
sessions. -/
theorem active_plate_duplicate :
    Reachable cfg9 p9 ∧ p9.vehiculos.map (fun v => v.placa) = ["ABC123", "ABC123"] := by
  constructor
  · exact Reachable.entry p9a veh9
      (Reachable.entry (Parqueadero.inicial cfg9) veh9 Reachable.init)
  · decide

/-- C9 (amended).  Plates are not unique among currently-parked
sessions: a state with two active sessions carrying the same plate is
reachable, because `registrar_entrada` performs no duplicate-plate
check. -/
theorem active_plate_not_unique :
    ∃ p, Reachable cfg9 p ∧ ∃ v1 v2, p.vehiculos = [v1, v2] ∧ v1.placa = v2.placa := by
  refine ⟨p9, Reachable.entry p9a veh9
      (Reachable.entry (Parqueadero.inicial cfg9) veh9 Reachable.init),
    entryVeh (Parqueadero.inicial cfg9) veh9, entryVeh p9a veh9, by decide, by decide⟩

/-! ## Claim C10: exit with a duplicated plate -/

/-- C10.  When the active list splits as `pre ++ v :: post` with no
plate match in `pre`, `v` matching, and at least one further match in
`post`, `registrar_salida` removes exactly the earliest-inserted match
`v`, appends exactly one history record built from `v`, increments the
capacity of `v`'s type by one, and every other session — the later
matches in `post` included — stays in the active list. -/
theorem salida_first_match (p : Parqueadero) (placa : String) (now : DateTime)
    (pre post : List Vehiculo) (v : Vehiculo) (entrada : DateTime)
    (hsplit : p.vehiculos = pre ++ v :: post)
    (hpre : ∀ u ∈ pre, u.placa ≠ pyUpper placa)
    (hv : v.placa = pyUpper placa)
    ( _hdup : ∃ w ∈ post, w.placa = pyUpper placa)
    (hp : strptime v.hora_entrada = some entrada) :
    registrar_salida p placa now =
      (some (mkRegistro p v now entrada),
       { cupos := dSet p.cupos v.tipo (dGet p.cupos v.tipo 0 + 1),
         vehiculos := pre ++ post,
         historial := p.historial ++ [mkRegistro p v now entrada],
         operador_actual := p.operador_actual }) ∧
    dGet (dSet p.cupos v.tipo (dGet p.cupos v.tipo 0 + 1)) v.tipo 0 =
      dGet p.cupos v.tipo 0 + 1 ∧
    (mkRegistro p v now entrada).placa = v.placa ∧
    (mkRegistro p v now entrada).tipo = v.tipo ∧
    (mkRegistro p v now entrada).cliente = v.cliente ∧
    (mkRegistro p v now entrada).hora_entrada = v.hora_entrada ∧
    ∀ w ∈ post, w ∈ pre ++ post := by
  have hf : p.vehiculos.find? (fun u => u.placa == pyUpper placa) = some v := by
    rw [hsplit]
    exact find?_append_first pre post v _
      (fun u hu => by simpa using hpre u hu) (by simpa using hv)
  have hrm : removeFirst p.vehiculos v = pre ++ post := by
    rw [hsplit]
    exact removeFirst_append pre post v
      (fun u hu heq' => hpre u hu (by rw [heq', hv]))
  have heq := registrar_salida_eq p placa now v entrada hf hp
  refine ⟨?_, ?_, rfl, rfl, rfl, rfl, ?_⟩
  · rw [heq, hrm]
  · rw [dGet_dSet, if_pos rfl]
  · exact fun w hw => List.mem_append.mpr (Or.inr hw)

def vD1 : Vehiculo := Vehiculo.make "dup999" "carro" "2024-01-01 08:00:00" "normal" 1 none none

def vD2 : Vehiculo := Vehiculo.make "dup999" "carro" "2024-01-01 09:00:00" "normal" 1 none none

def pW10 : Parqueadero :=
  { cupos := [("carro", 3)], vehiculos := [vD1, vD2],
    historial := [], operador_actual := some "ana" }

def nowW10 : DateTime := ⟨2024, 1, 1, 10, 0, 0⟩

def entW10 : DateTime := ⟨2024, 1, 1, 8, 0, 0⟩

/-- Witness for C10: two active sessions with plate `DUP999`; checking
the plate out removes only the earlier one and leaves the later one. -/
theorem salida_first_match_witness :
    registrar_salida pW10 "dup999" nowW10 =
      (some (mkRegistro pW10 vD1 nowW10 entW10),
       { cupos := dSet pW10.cupos vD1.tipo (dGet pW10.cupos vD1.tipo 0 + 1),
         vehiculos := [] ++ [vD2],
         historial := pW10.historial ++ [mkRegistro pW10 vD1 nowW10 entW10],
         operador_actual := pW10.operador_actual }) :=
  (salida_first_match pW10 "dup999" nowW10 [] [vD2] vD1 entW10 rfl (by decide)
    (by decide) (by decide) (by decide)).1
